import Mathlib

/-!
Shallow embedding of the `Keybinder` class from `src/keybinder.js` of the
gnome-shell-keybinder repository.

Pure string manipulation (`render`, the schema document of `build`) is
embedded as Lean functions on `String`.  Interactions with the outside
world — the filesystem write in `build`, the `glib-compile-schemas`
subprocess spawned by `compile`, the schema lookup of `load`, and the
host window-manager registration calls of `enable`/`disable` — are
embedded as an explicit trace of `HostCall` events, with an `Env` record
supplying the outcome of each external step (whether the file write
succeeds, whether the subprocess could be spawned and what it produced,
whether the schema lookup finds the id).  An operation that throws in the
JavaScript source returns `none` here; the trace lists the external calls
the operation issued, in order.
-/

/-- One keybinding as stored by `add` in `this.bindings`: a record
`{name, sequences, handler}`.  The handler is an opaque callback in the
source; it is embedded as an opaque numeric token. -/
structure Binding where
  name : String
  sequences : List String
  handler : Nat
deriving DecidableEq, Repr

/-- The in-memory state of a `Keybinder` instance: the fields assigned by
the constructor (`this.id`, `this.dir`, `this.bindings`). -/
structure Keybinder where
  id : String
  dir : String
  bindings : List Binding
deriving DecidableEq, Repr

/-- The `sequences` argument of `add`: the JavaScript source accepts either
a bare string or an array of strings (`sequences instanceof Array`). -/
inductive Sequences where
  | one (s : String)
  | many (ss : List String)
deriving DecidableEq, Repr

/-- A settings-schema source as assembled by `load`: either the system-wide
default source (`Gio.SettingsSchemaSource.get_default()`) or one built from
a directory with a parent fallback and a trusted flag
(`Gio.SettingsSchemaSource.new_from_directory(dir, parent, trusted)`). -/
inductive SchemaSrc where
  | systemDefault
  | fromDirectory (dir : String) (parent : SchemaSrc) (trusted : Bool)
deriving DecidableEq, Repr

/-- The result of a successful `src.lookup(id, recursive)` call. -/
structure SettingsSchema where
  source : SchemaSrc
  schemaId : String
deriving DecidableEq, Repr

/-- The `Gio.Settings` object constructed by `load` via
`new Gio.Settings({settings_schema: ...})`. -/
structure GioSettings where
  settings_schema : SettingsSchema
deriving DecidableEq, Repr

/-- The external calls the keybinder issues, recorded with the arguments
the source passes. -/
inductive HostCall where
  /-- `Gio.file_new_for_path(dir).get_child(file).replace_contents(content, ...)` -/
  | replace_contents (dir : String) (file : String) (content : String)
  /-- `GLib.spawn_sync(cwd, argv, null, flags, null)` -/
  | spawn_sync (cwd : String) (argv : List String) (flags : Nat)
  /-- `src.lookup(schemaId, recursive)` -/
  | lookup (source : SchemaSrc) (schemaId : String) (recursive : Bool)
  /-- `Main.wm.addKeybinding(name, settings, flags, modes, handler)` -/
  | addKeybinding (name : String) (settings : GioSettings) (flags : Nat)
      (modes : Nat) (handler : Nat)
  /-- `Main.wm.removeKeybinding(name)` -/
  | removeKeybinding (name : String)
deriving DecidableEq, Repr

/-- Whether a host call is a window-manager keybinding registration. -/
def HostCall.isRegistration : HostCall → Bool
  | .addKeybinding _ _ _ _ _ => true
  | _ => false

/-- Whether a host call is a window-manager keybinding unregistration. -/
def HostCall.isUnregistration : HostCall → Bool
  | .removeKeybinding _ => true
  | _ => false

/-- What the spawned compiler subprocess did: its exit status and its
standard output and error text.  The JavaScript source never looks at any
of these. -/
structure CompilerOutcome where
  exitStatus : Int
  stdout : String
  stderr : String
deriving DecidableEq, Repr

/-- Outcomes of the external collaborators, fixed by the environment:
whether the schema-file write of `build` succeeds (the directory exists and
is writable), whether the compiler executable could be spawned at all,
what the subprocess reported once spawned, and whether the schema lookup
of `load` finds the registry's id. -/
structure Env where
  buildOk : Bool
  spawnOk : Bool
  compiler : CompilerOutcome
  loadOk : Bool
deriving DecidableEq, Repr

/-- Host constant `Shell.ActionMode.NORMAL` (external collaborator value). -/
def Shell.ActionMode.NORMAL : Nat := 1

/-- Host constant `Shell.ActionMode.MESSAGE_TRAY` (external collaborator
value). -/
def Shell.ActionMode.MESSAGE_TRAY : Nat := 128

/-- GLib constant `GLib.SpawnFlags.SEARCH_PATH` (`G_SPAWN_SEARCH_PATH`). -/
def GLib.SpawnFlags.SEARCH_PATH : Nat := 4

/-- One character of GLib's `g_markup_escape_text` on the
markup-significant characters: `&`, `<`, `>`, `'` and `"` become the
corresponding entities, every other character passes through. -/
def markup_escape_char (c : Char) : String :=
  if c = '&' then "&amp;"
  else if c = '<' then "&lt;"
  else if c = '>' then "&gt;"
  else if c = Char.ofNat 39 then "&apos;"
  else if c = Char.ofNat 34 then "&quot;"
  else String.mk [c]

/-- Character-list form of the escape applied to a whole string. -/
def markup_escape_list : List Char → List Char
  | [] => []
  | c :: cs => (markup_escape_char c).data ++ markup_escape_list cs

/-- `GLib.markup_escape_text(s, s.length)` as called by `render`: the whole
string is escaped. -/
def markup_escape_text (s : String) : String :=
  String.mk (markup_escape_list s.data)

/-- Hexadecimal digit character, lower case, as used by JSON escapes. -/
def hexDigit (n : Nat) : Char :=
  if n < 10 then Char.ofNat (48 + n) else Char.ofNat (87 + n)

/-- `JSON.stringify` on one character of a string: `"` and `\` are
backslash-escaped, the named control escapes are used where they exist,
other control characters become `\u00XX`, everything else passes
through. -/
def JSON.stringifyChar (c : Char) : String :=
  if c = Char.ofNat 34 then "\\\""
  else if c = Char.ofNat 92 then "\\\\"
  else if c = Char.ofNat 8 then "\\b"
  else if c = Char.ofNat 9 then "\\t"
  else if c = Char.ofNat 10 then "\\n"
  else if c = Char.ofNat 12 then "\\f"
  else if c = Char.ofNat 13 then "\\r"
  else if c.toNat < 32 then
    "\\u00" ++ String.mk [hexDigit (c.toNat / 16), hexDigit (c.toNat % 16)]
  else String.mk [c]

/-- `JSON.stringify` of one string value. -/
def JSON.stringifyString (s : String) : String :=
  "\"" ++ String.join (s.data.map JSON.stringifyChar) ++ "\""

/-- `JSON.stringify` of an array of strings, as used on the escaped
sequence list in `render`. -/
def JSON.stringify (xs : List String) : String :=
  "[" ++ String.intercalate "," (xs.map JSON.stringifyString) ++ "]"

/-- The constructor:
`this.id = org.gnome.shell.extensions.$\x7bid\x7d; this.dir = directory;
this.bindings = [];` (the default `directory=GLib.get_tmp_dir()` is an
external value supplied by the caller of the embedding). -/
def Keybinder.construct (id : String) (directory : String) : Keybinder :=
  { id := "org.gnome.shell.extensions." ++ id
    dir := directory
    bindings := [] }

/-- `add(name, sequences, handler)`: a bare string is wrapped into a
one-element array (`sequences instanceof Array ? sequences : [sequences]`),
then the binding record is pushed onto `this.bindings`. -/
def Keybinder.add (k : Keybinder) (name : String) (sequences : Sequences)
    (handler : Nat) : Keybinder :=
  let seqs := match sequences with
    | .one s => [s]
    | .many ss => ss
  { k with bindings := k.bindings ++ [{ name := name, sequences := seqs, handler := handler }] }

/-- `render({name, sequences})`: escape each sequence, serialize the
escaped list as a JSON array inside a `default` element, and wrap it in a
`key` element carrying the binding's name verbatim. -/
def Keybinder.render (b : Binding) : String :=
  let value := b.sequences.map markup_escape_text
  let markup := "<default>" ++ JSON.stringify value ++ "</default>"
  "<key type=\"as\" name=\"" ++ b.name ++ "\"><summary/>" ++ markup ++ "</key>"

/-- The schema path derived in `build`: `this.id.replace(/\./g, '/')`. -/
def schemaPath (id : String) : String :=
  String.mk (id.data.map (fun c => if c = '.' then '/' else c))

/-- The document `build` writes: rendered entries joined inside a `schema`
element carrying the id and derived path, wrapped in a `schemalist`. -/
def Keybinder.buildContent (k : Keybinder) : String :=
  let path := schemaPath k.id
  let entries := String.join (k.bindings.map Keybinder.render)
  let schema := "<schema id=\"" ++ k.id ++ "\" path=\"/" ++ path ++ "/\">" ++ entries ++ "</schema>"
  "<schemalist>" ++ schema ++ "</schemalist>"

/-- `build()`: write the document to `dir/$\x7bthis.id\x7d.gschema.xml`,
replacing any prior contents.  The write fails (throws, `none`) exactly
when the environment says the directory is missing or unwritable. -/
def Keybinder.build (env : Env) (k : Keybinder) : Option Unit × List HostCall :=
  let call := HostCall.replace_contents k.dir (k.id ++ ".gschema.xml") (Keybinder.buildContent k)
  (if env.buildOk then some () else none, [call])

/-- `compile()`: spawn `glib-compile-schemas` synchronously on the working
directory with `SEARCH_PATH`, discarding the return value of
`GLib.spawn_sync` entirely; it throws only if the process could not be
spawned. -/
def Keybinder.compile (env : Env) (k : Keybinder) : Option Unit × List HostCall :=
  let exec := ["glib-compile-schemas", k.dir]
  let call := HostCall.spawn_sync k.dir exec GLib.SpawnFlags.SEARCH_PATH
  (if env.spawnOk then some () else none, [call])

/-- The settings object `load` returns on success: a `Gio.Settings` whose
schema was looked up in the directory source with systemwide fallback. -/
def Keybinder.loadedSettings (k : Keybinder) : GioSettings :=
  { settings_schema :=
      { source := SchemaSrc.fromDirectory k.dir SchemaSrc.systemDefault false
        schemaId := k.id } }

/-- `load()`: build a schema source from the working directory with the
system default source as fallback parent and trusted flag `false`, look up
`this.id` recursively, and wrap the found schema in a settings object.
The lookup fails (`none`) exactly when the environment says no schema with
this id is found. -/
def Keybinder.load (env : Env) (k : Keybinder) : Option GioSettings × List HostCall :=
  let fb := SchemaSrc.systemDefault
  let src := SchemaSrc.fromDirectory k.dir fb false
  let call := HostCall.lookup src k.id true
  (if env.loadOk then some (Keybinder.loadedSettings k) else none, [call])

/-- `enable()`: `build()`, then `compile()`, then `load()`, then one
`Main.wm.addKeybinding(name, settings, 0, modes, handler)` per binding in
list order, with `modes = Shell.ActionMode.NORMAL |
Shell.ActionMode.MESSAGE_TRAY`.  A failing step aborts the call. -/
def Keybinder.enable (env : Env) (k : Keybinder) : Option Unit × List HostCall :=
  match Keybinder.build env k with
  | (none, t1) => (none, t1)
  | (some _, t1) =>
    match Keybinder.compile env k with
    | (none, t2) => (none, t1 ++ t2)
    | (some _, t2) =>
      match Keybinder.load env k with
      | (none, t3) => (none, t1 ++ t2 ++ t3)
      | (some settings, t3) =>
        let modes := Shell.ActionMode.NORMAL ||| Shell.ActionMode.MESSAGE_TRAY
        let regs := k.bindings.map (fun b =>
          HostCall.addKeybinding b.name settings 0 modes b.handler)
        (some (), t1 ++ t2 ++ t3 ++ regs)

/-- `disable()`: one `Main.wm.removeKeybinding(name)` per binding in list
order; the in-memory state is untouched and nothing is deleted. -/
def Keybinder.disable (k : Keybinder) : Keybinder × List HostCall :=
  (k, k.bindings.map (fun b => HostCall.removeKeybinding b.name))

/-- The entity bodies `markup_escape_char` may emit after an ampersand. -/
def entities : List (List Char) :=
  ["amp;".data, "lt;".data, "gt;".data, "apos;".data, "quot;".data]

/-- One position of the escapedness check: the character is not a literal
`<`, `>`, `"` or `'`, and an ampersand is immediately followed by one of
the entity bodies. -/
def headOk (c : Char) (cs : List Char) : Bool :=
  if c == '<' || c == '>' || c == Char.ofNat 34 || c == Char.ofNat 39 then false
  else if c == '&' then entities.any (fun e => e.isPrefixOf cs)
  else true

/-- A character list contains no unescaped markup-significant character:
none of `<`, `>`, `"`, `'` occurs at all, and every `&` starts one of the
five escape entities. -/
def wellEscaped : List Char → Bool
  | [] => true
  | c :: cs => headOk c cs && wellEscaped cs

lemma headOk_append {c : Char} {cs b : List Char} (h : headOk c cs = true) :
    headOk c (cs ++ b) = true := by
  unfold headOk at h ⊢
  by_cases h1 : (c == '<' || c == '>' || c == Char.ofNat 34 || c == Char.ofNat 39) = true
  · rw [if_pos h1] at h
    exact absurd h (by simp)
  · rw [Bool.not_eq_true] at h1
    rw [if_neg (by simp [h1])] at h ⊢
    by_cases h2 : (c == '&') = true
    · rw [if_pos h2] at h ⊢
      rw [List.any_eq_true] at h ⊢
      obtain ⟨e, he, hp⟩ := h
      refine ⟨e, he, ?_⟩
      rw [List.isPrefixOf_iff_prefix] at hp ⊢
      exact hp.trans (List.prefix_append cs b)
    · rw [Bool.not_eq_true] at h2
      rw [if_neg (by simp [h2])]

lemma wellEscaped_append {a b : List Char} (ha : wellEscaped a = true)
    (hb : wellEscaped b = true) : wellEscaped (a ++ b) = true := by
  induction a with
  | nil => simpa using hb
  | cons c cs ih =>
    rw [List.cons_append]
    unfold wellEscaped at ha ⊢
    rw [Bool.and_eq_true] at ha ⊢
    exact ⟨headOk_append ha.1, ih ha.2⟩

lemma wellEscaped_escape_char (c : Char) :
    wellEscaped (markup_escape_char c).data = true := by
  by_cases h1 : c = '&'
  · subst h1; decide
  by_cases h2 : c = '<'
  · subst h2; decide
  by_cases h3 : c = '>'
  · subst h3; decide
  by_cases h4 : c = Char.ofNat 39
  · subst h4; decide
  by_cases h5 : c = Char.ofNat 34
  · subst h5; decide
  · simp only [markup_escape_char, if_neg h1, if_neg h2, if_neg h3, if_neg h4, if_neg h5]
    show wellEscaped [c] = true
    simp [wellEscaped, headOk, h1, h2, h3, h4, h5]

lemma wellEscaped_markup_escape_list (l : List Char) :
    wellEscaped (markup_escape_list l) = true := by
  induction l with
  | nil => rfl
  | cons c cs ih => exact wellEscaped_append (wellEscaped_escape_char c) ih

/-- The registry of the spec's end-to-end example: id `demo`, directory
`/tmp/kbtest`, bindings `toggle` and `quit`. -/
def demoKeybinder : Keybinder :=
  Keybinder.add
    (Keybinder.add (Keybinder.construct "demo" "/tmp/kbtest")
      "toggle" (Sequences.one "<Super>j") 1)
    "quit" (Sequences.many ["<Super>q", "<Super>Escape>"]) 2

/-- The same registry with a different working directory only. -/
def demoKeybinderAlt : Keybinder :=
  { demoKeybinder with dir := "/var/kbtest" }

/-- An environment where every external step succeeds. -/
def okEnv : Env :=
  { buildOk := true
    spawnOk := true
    compiler := { exitStatus := 0, stdout := "", stderr := "" }
    loadOk := true }

/-- An environment whose working directory does not exist: the file write
of `build` fails. -/
def noDirEnv : Env :=
  { buildOk := false
    spawnOk := true
    compiler := { exitStatus := 0, stdout := "", stderr := "" }
    loadOk := true }

/-- An environment where the compiler subprocess runs but fails, reporting
a nonzero exit status and stderr text, leaving no compiled schema for the
later lookup. -/
def failingCompilerEnv : Env :=
  { buildOk := true
    spawnOk := true
    compiler := { exitStatus := 1, stdout := "", stderr := "schema error" }
    loadOk := false }

/-- The `quit` binding of the example, with a `<`/`>`-laden sequence. -/
def quitBinding : Binding :=
  { name := "quit", sequences := ["<Super>q", "<Super>Escape>"], handler := 2 }

/-- A binding whose name contains a double quote. -/
def unescapedNameBinding : Binding :=
  { name := "x\"y", sequences := ["a"], handler := 0 }

/-- C1: for every registry, `enable()` performs `build()`, then
`compile()`, then `load()`, and then, for every binding in add order,
exactly one host registration call passing the binding's name, the
settings object returned by `load()`, binding flags `0`, the action-mode
mask `NORMAL ||| MESSAGE_TRAY`, and the binding's handler; every
registration call comes after the `load()` lookup in the trace. -/
theorem enable_registers_in_order (env : Env) (k : Keybinder)
    (hb : env.buildOk = true) (hs : env.spawnOk = true) (hl : env.loadOk = true) :
    Keybinder.enable env k =
      (some (),
        HostCall.replace_contents k.dir (k.id ++ ".gschema.xml") (Keybinder.buildContent k)
          :: HostCall.spawn_sync k.dir ["glib-compile-schemas", k.dir] GLib.SpawnFlags.SEARCH_PATH
          :: HostCall.lookup (SchemaSrc.fromDirectory k.dir SchemaSrc.systemDefault false) k.id true
          :: k.bindings.map (fun b =>
               HostCall.addKeybinding b.name (Keybinder.loadedSettings k) 0
                 (Shell.ActionMode.NORMAL ||| Shell.ActionMode.MESSAGE_TRAY) b.handler)) := by
  simp [Keybinder.enable, Keybinder.build, Keybinder.compile, Keybinder.load, hb, hs, hl]

/-- Witness for C1 at the example registry in the all-success
environment. -/
theorem enable_registers_in_order_witness :
    okEnv.buildOk = true ∧ okEnv.spawnOk = true ∧ okEnv.loadOk = true ∧
    Keybinder.enable okEnv demoKeybinder =
      (some (),
        HostCall.replace_contents demoKeybinder.dir (demoKeybinder.id ++ ".gschema.xml")
            (Keybinder.buildContent demoKeybinder)
          :: HostCall.spawn_sync demoKeybinder.dir ["glib-compile-schemas", demoKeybinder.dir]
              GLib.SpawnFlags.SEARCH_PATH
          :: HostCall.lookup (SchemaSrc.fromDirectory demoKeybinder.dir SchemaSrc.systemDefault false)
              demoKeybinder.id true
          :: demoKeybinder.bindings.map (fun b =>
               HostCall.addKeybinding b.name (Keybinder.loadedSettings demoKeybinder) 0
                 (Shell.ActionMode.NORMAL ||| Shell.ActionMode.MESSAGE_TRAY) b.handler)) :=
  ⟨rfl, rfl, rfl, enable_registers_in_order okEnv demoKeybinder rfl rfl rfl⟩

/-- C2: `compile()` returns normally for every outcome of the spawned
subprocess, and its result and trace never depend on the subprocess's
exit status or output — a compiler failure is never reported by
`compile()` itself. -/
theorem compile_ignores_subprocess_outcome (env env2 : Env) (k : Keybinder)
    (h1 : env.spawnOk = true) (h2 : env2.spawnOk = true) :
    Keybinder.compile env k =
      (some (), [HostCall.spawn_sync k.dir ["glib-compile-schemas", k.dir] GLib.SpawnFlags.SEARCH_PATH])
    ∧ Keybinder.compile env2 k = Keybinder.compile env k := by
  constructor
  · simp [Keybinder.compile, h1]
  · simp [Keybinder.compile, h1, h2]

/-- Witness for C2: a loudly failing compiler run gives the same
`compile()` result as a clean one. -/
theorem compile_ignores_subprocess_outcome_witness :
    okEnv.spawnOk = true ∧ failingCompilerEnv.spawnOk = true ∧
    (Keybinder.compile okEnv demoKeybinder =
      (some (), [HostCall.spawn_sync demoKeybinder.dir ["glib-compile-schemas", demoKeybinder.dir]
        GLib.SpawnFlags.SEARCH_PATH])
    ∧ Keybinder.compile failingCompilerEnv demoKeybinder = Keybinder.compile okEnv demoKeybinder) :=
  ⟨rfl, rfl, compile_ignores_subprocess_outcome okEnv failingCompilerEnv demoKeybinder rfl rfl⟩

set_option maxRecDepth 8192 in
/-- C3: the document `build()` writes is a deterministic function of the
identifier and the binding list (the working directory and anything else
do not change it), it has the `schemalist`/`schema`/per-binding-`key`
shape, and on the spec's `demo` example it is exactly the expected
document with schema id `org.gnome.shell.extensions.demo`, path
`/org/gnome/shell/extensions/demo/` and two `key` elements named `toggle`
and `quit`. -/
theorem build_deterministic_document (env : Env) (k k2 : Keybinder)
    (hid : k.id = k2.id) (hbind : k.bindings = k2.bindings) :
    Keybinder.buildContent k = Keybinder.buildContent k2
    ∧ (Keybinder.build env k).2 =
        [HostCall.replace_contents k.dir (k.id ++ ".gschema.xml") (Keybinder.buildContent k)]
    ∧ Keybinder.buildContent k =
        "<schemalist>" ++ ("<schema id=\"" ++ k.id ++ "\" path=\"/" ++ schemaPath k.id ++ "/\">"
          ++ String.join (k.bindings.map Keybinder.render) ++ "</schema>") ++ "</schemalist>"
    ∧ Keybinder.buildContent demoKeybinder =
        "<schemalist><schema id=\"org.gnome.shell.extensions.demo\" path=\"/org/gnome/shell/extensions/demo/\"><key type=\"as\" name=\"toggle\"><summary/><default>[\"&lt;Super&gt;j\"]</default></key><key type=\"as\" name=\"quit\"><summary/><default>[\"&lt;Super&gt;q\",\"&lt;Super&gt;Escape&gt;\"]</default></key></schema></schemalist>" := by
  refine ⟨?_, rfl, rfl, by decide⟩
  simp [Keybinder.buildContent, schemaPath, hid, hbind]

/-- Witness for C3: two registries sharing id and bindings but with
different working directories produce the same document. -/
theorem build_deterministic_document_witness :
    demoKeybinder.id = demoKeybinderAlt.id
    ∧ demoKeybinder.bindings = demoKeybinderAlt.bindings
    ∧ Keybinder.buildContent demoKeybinder = Keybinder.buildContent demoKeybinderAlt :=
  ⟨rfl, rfl, (build_deterministic_document okEnv demoKeybinder demoKeybinderAlt rfl rfl).1⟩

/-- C4: every sequence of a binding is markup-escaped before being JSON
serialized into the `default` element of `render`'s output, and the
escaped form contains no unescaped markup-significant character: `<`,
`>`, `"`, `'` do not occur in it at all and every `&` starts an escape
entity. -/
theorem render_escapes_sequences (b : Binding) (s : String) (_hs : s ∈ b.sequences) :
    wellEscaped (markup_escape_text s).data = true
    ∧ Keybinder.render b =
        "<key type=\"as\" name=\"" ++ b.name ++ "\"><summary/>"
          ++ ("<default>" ++ JSON.stringify (b.sequences.map markup_escape_text) ++ "</default>")
          ++ "</key>" :=
  ⟨wellEscaped_markup_escape_list s.data, rfl⟩

/-- Witness for C4 on the `quit` binding's first sequence. -/
theorem render_escapes_sequences_witness :
    "<Super>q" ∈ quitBinding.sequences
    ∧ wellEscaped (markup_escape_text "<Super>q").data = true :=
  ⟨by decide, (render_escapes_sequences quitBinding "<Super>q" (by decide)).1⟩

/-- C5: if `build()`, `compile()` or `load()` fails inside `enable()`,
the call propagates the failure and the trace contains no host
registration call at all. -/
theorem enable_fails_without_registration (env : Env) (k : Keybinder)
    (h : env.buildOk = false ∨ env.spawnOk = false ∨ env.loadOk = false) :
    (Keybinder.enable env k).1 = none
    ∧ (Keybinder.enable env k).2.all (fun c => !c.isRegistration) = true := by
  cases hb : env.buildOk with
  | false =>
    simp [Keybinder.enable, Keybinder.build, hb, HostCall.isRegistration]
  | true =>
    cases hs : env.spawnOk with
    | false =>
      simp [Keybinder.enable, Keybinder.build, Keybinder.compile, hb, hs, HostCall.isRegistration]
    | true =>
      cases hl : env.loadOk with
      | false =>
        simp [Keybinder.enable, Keybinder.build, Keybinder.compile, Keybinder.load, hb, hs, hl,
          HostCall.isRegistration]
      | true =>
        rw [hb, hs, hl] at h
        simp at h

/-- Witness for C5: with a missing working directory, `enable()` on the
example registry fails and registers nothing. -/
theorem enable_fails_without_registration_witness :
    (noDirEnv.buildOk = false ∨ noDirEnv.spawnOk = false ∨ noDirEnv.loadOk = false)
    ∧ ((Keybinder.enable noDirEnv demoKeybinder).1 = none
       ∧ (Keybinder.enable noDirEnv demoKeybinder).2.all (fun c => !c.isRegistration) = true) :=
  ⟨Or.inl rfl, enable_fails_without_registration noDirEnv demoKeybinder (Or.inl rfl)⟩

/-- C6: `disable()` issues exactly one host unregister call per binding in
the in-memory list, carrying that binding's name, in add order, in every
state and with no prior existence check. -/
theorem disable_unregisters_each_binding (k : Keybinder) :
    (Keybinder.disable k).2.length = k.bindings.length
    ∧ ∀ i : Nat, ((Keybinder.disable k).2)[i]? =
        (k.bindings[i]?).map (fun b => HostCall.removeKeybinding b.name) := by
  constructor
  · simp [Keybinder.disable]
  · intro i
    simp [Keybinder.disable]

/-- C7: `disable()` leaves the registry state unchanged, performs only
unregistration calls (no filesystem deletion, no other host call), and a
subsequent `enable()` behaves exactly as an `enable()` before the
`disable()` — same pipeline, same registrations in the same order. -/
theorem disable_preserves_state (env : Env) (k : Keybinder) :
    (Keybinder.disable k).1 = k
    ∧ (Keybinder.disable k).2.all HostCall.isUnregistration = true
    ∧ Keybinder.enable env ((Keybinder.disable k).1) = Keybinder.enable env k := by
  refine ⟨rfl, ?_, rfl⟩
  simp [Keybinder.disable, HostCall.isUnregistration]

/-- C8: `add` with a bare accelerator string leaves the registry in
exactly the state of `add` with the one-element sequence list. -/
theorem add_normalizes_bare_string (k : Keybinder) (name s : String) (handler : Nat) :
    Keybinder.add k name (Sequences.one s) handler
      = Keybinder.add k name (Sequences.many [s]) handler := rfl

/-- C9: `load()` looks the schema id up in a source built from the
registry's working directory with the system-wide default source as
fallback parent, and passes the recursive flag as `true`. -/
theorem load_uses_recursive_lookup (env : Env) (k : Keybinder) :
    (Keybinder.load env k).2 =
      [HostCall.lookup (SchemaSrc.fromDirectory k.dir SchemaSrc.systemDefault false) k.id true] := rfl

/-- C10: `render` interpolates the binding's name verbatim into the name
attribute — only the sequences are escaped — so a double quote in a
binding's name appears unescaped in the output. -/
theorem render_name_verbatim :
    (∀ b : Binding, Keybinder.render b =
      "<key type=\"as\" name=\"" ++ b.name ++ "\"><summary/>"
        ++ ("<default>" ++ JSON.stringify (b.sequences.map markup_escape_text) ++ "</default>")
        ++ "</key>")
    ∧ Char.ofNat 34 ∈ unescapedNameBinding.name.data
    ∧ Keybinder.render unescapedNameBinding =
        "<key type=\"as\" name=\"x\"y\"><summary/><default>[\"a\"]</default></key>" :=
  ⟨fun _ => rfl, by decide, by decide⟩
